import Mathlib

/-!
Formal model of the diagnostic engine of the Mkce repository
(src/backend/diagnostic_engine.py and src/backend/patient_model.py).

Python floats are modelled as rationals (the engine only compares lab
values against decimal constants and never does arithmetic on them except
for the BMI, so the order structure is all that matters); Python ints as
Int; Python Optional fields as Option.  A Python value used in a boolean
context (`if labs.x and ...`) is falsy when it is None or 0; the helper
onPresent models exactly that short-circuit.  Rational division is total
(x / 0 = 0) where Python would raise; no theorem below depends on a zero
height.  Mathlib round rounds half up while Python rounds half to even;
no theorem below depends on a tie.
-/

namespace Mkce

/-- RiskLevel enum (diagnostic_engine.py lines 12-17). -/
inductive RiskLevel where
  | normal
  | low
  | moderate
  | high
  | critical
deriving DecidableEq, Repr

/-- The score table of _calculate_overall_risk (lines 509-515). -/
def risk_score : RiskLevel → Nat
  | .normal => 0
  | .low => 1
  | .moderate => 2
  | .high => 3
  | .critical => 4

/-- The first RiskLevel whose score equals n, in dict insertion order
(lines 519-523); unreachable scores fall through to normal. -/
def score_to_risk (n : Nat) : RiskLevel :=
  if n = 0 then .normal
  else if n = 1 then .low
  else if n = 2 then .moderate
  else if n = 3 then .high
  else if n = 4 then .critical
  else .normal

/-- DiagnosticFinding dataclass (lines 20-29). -/
structure DiagnosticFinding where
  category : String
  parameter : String
  value : ℚ
  normal_range : String
  status : RiskLevel
  interpretation : String
  recommendations : List String
deriving DecidableEq, Repr

/-- One entry of the possible_conditions list: the Python dict
with keys condition / confidence / description. -/
structure ConditionEntry where
  condition : String
  confidence : String
  description : String
deriving DecidableEq, Repr

/-- Gender enum (patient_model.py lines 12-15). -/
inductive Gender where
  | male
  | female
  | other
deriving DecidableEq, Repr

/-- The .value string of a Gender. -/
def Gender.value : Gender → String
  | .male => "male"
  | .female => "female"
  | .other => "other"

/-- VitalSigns dataclass (patient_model.py lines 29-44). -/
structure VitalSigns where
  temperature : ℚ
  blood_pressure_systolic : Int
  blood_pressure_diastolic : Int
  heart_rate : Int
  respiratory_rate : Int
  oxygen_saturation : ℚ
  weight : ℚ
  height : ℚ
deriving DecidableEq, Repr

/-- round(x, 2): see the header note on tie behaviour. -/
def round2 (q : ℚ) : ℚ := (round (q * 100) : ℤ) / 100

/-- VitalSigns.get_bmi (patient_model.py lines 41-44). -/
def VitalSigns.get_bmi (v : VitalSigns) : ℚ :=
  round2 (v.weight / ((v.height / 100) ^ 2))

/-- LabResults dataclass (patient_model.py lines 47-87); every field
independently optional, None meaning not tested. -/
structure LabResults where
  hemoglobin : Option ℚ := none
  wbc_count : Option ℚ := none
  platelet_count : Option ℚ := none
  rbc_count : Option ℚ := none
  fasting_glucose : Option ℚ := none
  random_glucose : Option ℚ := none
  hba1c : Option ℚ := none
  total_cholesterol : Option ℚ := none
  ldl_cholesterol : Option ℚ := none
  hdl_cholesterol : Option ℚ := none
  triglycerides : Option ℚ := none
  creatinine : Option ℚ := none
  bun : Option ℚ := none
  uric_acid : Option ℚ := none
  sgot_ast : Option ℚ := none
  sgpt_alt : Option ℚ := none
  bilirubin_total : Option ℚ := none
  tsh : Option ℚ := none
  t3 : Option ℚ := none
  t4 : Option ℚ := none
  sodium : Option ℚ := none
  potassium : Option ℚ := none
  vitamin_d : Option ℚ := none
  vitamin_b12 : Option ℚ := none
deriving DecidableEq, Repr

/-- MedicalHistory dataclass (patient_model.py lines 89-98). -/
structure MedicalHistory where
  chronic_conditions : List String := []
  allergies : List String := []
  current_medications : List String := []
  past_surgeries : List String := []
  family_history : List String := []
  smoking : Bool := false
  alcohol_consumption : Bool := false
deriving DecidableEq, Repr

/-- Symptoms dataclass (patient_model.py lines 101-107). -/
structure Symptoms where
  chief_complaint : String
  symptoms_list : List String := []
  duration_days : Int := 0
  severity : String := "moderate"
deriving DecidableEq, Repr

/-- Patient dataclass (patient_model.py lines 110-127); the creation
timestamp is metadata never read by the engine and is not modelled. -/
structure Patient where
  patient_id : String
  name : String
  age : Int
  gender : Gender
  contact : String := ""
  vital_signs : Option VitalSigns := none
  lab_results : Option LabResults := none
  medical_history : Option MedicalHistory := none
  symptoms : Option Symptoms := none
deriving DecidableEq, Repr

/-- DiagnosticReport dataclass (diagnostic_engine.py lines 32-42). -/
structure DiagnosticReport where
  patient_id : String
  findings : List DiagnosticFinding
  possible_conditions : List ConditionEntry
  overall_risk : RiskLevel
  immediate_actions : List String
  follow_up_tests : List String
  general_recommendations : List String
  summary : String
deriving DecidableEq, Repr

/-- Python truthiness of an optional numeric field: `if labs.x:` (and the
short-circuit `labs.x and P(labs.x)`) runs the body only when the field is
present and nonzero. -/
def onPresent {α : Type} (dflt : α) (f : ℚ → α) (o : Option ℚ) : α :=
  match o with
  | none => dflt
  | some x => if x = 0 then dflt else f x

/-- Substring test on char lists: isPrefixL n h decides whether n is a
prefix of h. -/
def isPrefixL : List Char → List Char → Bool
  | [], _ => true
  | _ :: _, [] => false
  | a :: n, b :: h => a == b && isPrefixL n h

/-- containsL n h decides whether n occurs as a contiguous run inside h,
the semantics of the Python `in` operator on strings. -/
def containsL (n : List Char) : List Char → Bool
  | [] => n.isEmpty
  | b :: t => isPrefixL n (b :: t) || containsL n t

/-- Python substring test needle in hay. -/
def strContains (hay needle : String) : Bool :=
  containsL needle.toList hay.toList

/-- _assess_blood_pressure (diagnostic_engine.py lines 453-479). -/
def assess_blood_pressure (systolic diastolic : Int) :
    RiskLevel × String × List String :=
  if systolic ≥ 180 ∨ diastolic ≥ 120 then
    (RiskLevel.critical,
     "Hypertensive Crisis - immediate medical attention required",
     ["Seek emergency care immediately", "May need hospitalization",
      "Risk of stroke/heart attack"])
  else if systolic ≥ 140 ∨ diastolic ≥ 90 then
    (RiskLevel.high,
     "Hypertension (High Blood Pressure) - Stage 2",
     ["Antihypertensive medication needed", "Low sodium diet",
      "Regular monitoring"])
  else if systolic ≥ 130 ∨ diastolic ≥ 80 then
    (RiskLevel.moderate,
     "Hypertension (High Blood Pressure) - Stage 1",
     ["Lifestyle modifications", "Monitor regularly", "Consider medication"])
  else if systolic < 90 ∨ diastolic < 60 then
    (RiskLevel.moderate,
     "Hypotension (Low Blood Pressure)",
     ["Increase fluid intake", "Avoid sudden position changes",
      "Monitor symptoms"])
  else (RiskLevel.normal, "Normal blood pressure", [])

/-- _assess_bmi (diagnostic_engine.py lines 481-502). -/
def assess_bmi (bmi : ℚ) : RiskLevel × String × List String :=
  if bmi < 18.5 then
    (RiskLevel.moderate, "Underweight",
     ["Increase caloric intake", "Nutritionist consultation",
      "Rule out underlying conditions"])
  else if 25 ≤ bmi ∧ bmi < 30 then
    (RiskLevel.low, "Overweight",
     ["Balanced diet", "Regular exercise", "Weight management program"])
  else if bmi ≥ 30 then
    ((if bmi ≥ 35 then RiskLevel.high else RiskLevel.moderate),
     (if bmi ≥ 35 then "Obesity (Class II or higher)" else "Obesity (Class I)"),
     ["Weight loss program", "Dietitian consultation", "Exercise regimen",
      "Screen for metabolic syndrome"])
  else (RiskLevel.normal, "Normal weight", [])

/-- Temperature rule of _analyze_vitals (lines 104-113). -/
def tempFindings (v : VitalSigns) : List DiagnosticFinding :=
  if v.temperature > 38.0 then
    [{ category := "Vital Signs", parameter := "Body Temperature",
       value := v.temperature, normal_range := "36.5-37.5°C",
       status := if v.temperature > 39.0 then RiskLevel.high else RiskLevel.moderate,
       interpretation := "Fever detected - possible infection or inflammatory condition",
       recommendations := ["Monitor temperature regularly", "Stay hydrated",
                           "Consider antipyretics if >38.5°C"] }]
  else []

/-- Blood pressure rule of _analyze_vitals (lines 116-126). -/
def bpFindings (v : VitalSigns) : List DiagnosticFinding :=
  let bp_status := assess_blood_pressure v.blood_pressure_systolic v.blood_pressure_diastolic
  if bp_status.1 ≠ RiskLevel.normal then
    [{ category := "Vital Signs", parameter := "Blood Pressure",
       value := (v.blood_pressure_systolic : ℚ),
       normal_range := "90-120/60-80 mmHg",
       status := bp_status.1,
       interpretation := bp_status.2.1,
       recommendations := bp_status.2.2 }]
  else []

/-- Heart rate rule of _analyze_vitals (lines 129-140). -/
def hrFindings (v : VitalSigns) : List DiagnosticFinding :=
  if v.heart_rate < 60 ∨ v.heart_rate > 100 then
    [{ category := "Vital Signs", parameter := "Heart Rate",
       value := (v.heart_rate : ℚ), normal_range := "60-100 bpm",
       status := if 50 ≤ v.heart_rate ∧ v.heart_rate ≤ 110
                 then RiskLevel.moderate else RiskLevel.high,
       interpretation := (if v.heart_rate < 60 then "Bradycardia" else "Tachycardia")
                       ++ " detected",
       recommendations := ["Monitor heart rate", "ECG recommended",
                           "Check for underlying causes"] }]
  else []

/-- Oxygen saturation rule of _analyze_vitals (lines 143-153). -/
def o2Findings (v : VitalSigns) : List DiagnosticFinding :=
  if v.oxygen_saturation < 95 then
    [{ category := "Vital Signs", parameter := "Oxygen Saturation",
       value := v.oxygen_saturation, normal_range := "95-100%",
       status := if v.oxygen_saturation < 90 then RiskLevel.critical else RiskLevel.high,
       interpretation := "Low oxygen levels - possible respiratory issue",
       recommendations := ["Oxygen therapy may be needed", "Chest X-ray recommended",
                           "Monitor breathing"] }]
  else []

/-- BMI rule of _analyze_vitals (lines 156-167). -/
def bmiFindings (v : VitalSigns) : List DiagnosticFinding :=
  let bmi := v.get_bmi
  let bmi_status := assess_bmi bmi
  if bmi_status.1 ≠ RiskLevel.normal then
    [{ category := "Vital Signs", parameter := "BMI",
       value := bmi, normal_range := "18.5-24.9",
       status := bmi_status.1,
       interpretation := bmi_status.2.1,
       recommendations := bmi_status.2.2 }]
  else []

/-- _analyze_vitals (lines 100-167): the findings appended, in order;
the age argument is accepted and unused, as in the source. -/
def analyze_vitals (v : VitalSigns) (age : Int) : List DiagnosticFinding :=
  tempFindings v ++ bpFindings v ++ hrFindings v ++ o2Findings v ++ bmiFindings v

/-- Diabetes screening rule of _analyze_labs (lines 174-190): appended
findings and conditions. -/
def glucoseRule (o : Option ℚ) : List DiagnosticFinding × List ConditionEntry :=
  onPresent ([], []) (fun g =>
    if g ≥ 100 then
      ([{ category := "Blood Sugar", parameter := "Fasting Glucose",
          value := g, normal_range := "70-99 mg/dL",
          status := if g ≥ 126 then RiskLevel.high else RiskLevel.moderate,
          interpretation := if g ≥ 126 then "Diabetes Mellitus"
                            else "Prediabetes (Impaired Fasting Glucose)",
          recommendations := ["HbA1c test recommended", "Lifestyle modifications",
                              "Consult endocrinologist"] }],
       [{ condition := if g ≥ 126 then "Diabetes Mellitus"
                       else "Prediabetes (Impaired Fasting Glucose)",
          confidence := if g ≥ 126 then "High" else "Moderate",
          description := "Elevated blood sugar levels indicate glucose metabolism issues" }])
    else ([], [])) o

/-- HbA1c rule of _analyze_labs (lines 193-204). -/
def hba1cRule (o : Option ℚ) : List DiagnosticFinding × List ConditionEntry :=
  onPresent ([], []) (fun a =>
    if a ≥ 5.7 then
      ([{ category := "Blood Sugar", parameter := "HbA1c",
          value := a, normal_range := "<5.7%",
          status := if a ≥ 6.5 then RiskLevel.high else RiskLevel.moderate,
          interpretation := if a ≥ 6.5 then "Diabetes Mellitus" else "Prediabetes",
          recommendations := ["Blood sugar monitoring", "Dietary changes",
                              "Regular exercise"] }],
       [])
    else ([], [])) o

/-- Total cholesterol rule of _analyze_labs (lines 207-222). -/
def totalCholesterolRule (o : Option ℚ) : List DiagnosticFinding × List ConditionEntry :=
  onPresent ([], []) (fun c =>
    if c ≥ 200 then
      ([{ category := "Lipid Profile", parameter := "Total Cholesterol",
          value := c, normal_range := "<200 mg/dL",
          status := if c ≥ 240 then RiskLevel.high else RiskLevel.moderate,
          interpretation := "Hypercholesterolemia - increased cardiovascular risk",
          recommendations := ["Low-fat diet", "Regular exercise",
                              "Statin therapy consideration"] }],
       [{ condition := "Hyperlipidemia", confidence := "High",
          description := "Elevated cholesterol increases risk of heart disease and stroke" }])
    else ([], [])) o

/-- LDL cholesterol rule of _analyze_labs (lines 225-235). -/
def ldlRule (o : Option ℚ) : List DiagnosticFinding × List ConditionEntry :=
  onPresent ([], []) (fun c =>
    if c ≥ 130 then
      ([{ category := "Lipid Profile", parameter := "LDL Cholesterol",
          value := c, normal_range := "<100 mg/dL",
          status := if c ≥ 160 then RiskLevel.high else RiskLevel.moderate,
          interpretation := "Elevated \x27bad\x27 cholesterol",
          recommendations := ["Reduce saturated fats", "Increase fiber intake",
                              "Consider medication"] }],
       [])
    else ([], [])) o

/-- HDL cholesterol rule of _analyze_labs (lines 238-247). -/
def hdlRule (o : Option ℚ) : List DiagnosticFinding × List ConditionEntry :=
  onPresent ([], []) (fun c =>
    if c < 40 then
      ([{ category := "Lipid Profile", parameter := "HDL Cholesterol",
          value := c, normal_range := ">40 mg/dL (men), >50 mg/dL (women)",
          status := RiskLevel.moderate,
          interpretation := "Low \x27good\x27 cholesterol - reduced cardiovascular protection",
          recommendations := ["Increase physical activity", "Omega-3 fatty acids",
                              "Quit smoking if applicable"] }],
       [])
    else ([], [])) o

/-- Anemia detection rule of _analyze_labs (lines 250-268); the normal
band depends on the gender string. -/
def hemoglobinRule (o : Option ℚ) (gender : String) :
    List DiagnosticFinding × List ConditionEntry :=
  onPresent ([], []) (fun hb =>
    if (gender = "male" ∧ hb < 13.5) ∨ (gender = "female" ∧ hb < 12.0) then
      ([{ category := "Complete Blood Count", parameter := "Hemoglobin",
          value := hb, normal_range := "13.5-17.5 g/dL (men), 12.0-15.5 g/dL (women)",
          status := if hb < 10 then RiskLevel.high else RiskLevel.moderate,
          interpretation := "Anemia detected",
          recommendations := ["Iron-rich diet", "Iron supplements",
                              "Check for bleeding sources"] }],
       [{ condition := "Anemia", confidence := "High",
          description := "Low hemoglobin can cause fatigue and weakness" }])
    else ([], [])) o

/-- Kidney function rule of _analyze_labs (lines 271-289). -/
def creatinineRule (o : Option ℚ) (gender : String) :
    List DiagnosticFinding × List ConditionEntry :=
  onPresent ([], []) (fun cr =>
    if (gender = "male" ∧ cr > 1.3) ∨ (gender = "female" ∧ cr > 1.1) then
      ([{ category := "Kidney Function", parameter := "Creatinine",
          value := cr, normal_range := "0.7-1.3 mg/dL (men), 0.6-1.1 mg/dL (women)",
          status := if cr > 2.0 then RiskLevel.high else RiskLevel.moderate,
          interpretation := "Possible kidney dysfunction",
          recommendations := ["Kidney function tests", "Monitor hydration",
                              "Nephrology consultation"] }],
       [{ condition := "Chronic Kidney Disease (suspected)", confidence := "Moderate",
          description := "Elevated creatinine may indicate impaired kidney function" }])
    else ([], [])) o

/-- AST rule of _analyze_labs (lines 292-302). -/
def astRule (o : Option ℚ) : List DiagnosticFinding × List ConditionEntry :=
  onPresent ([], []) (fun a =>
    if a > 40 then
      ([{ category := "Liver Function", parameter := "SGOT/AST",
          value := a, normal_range := "10-40 U/L",
          status := if a > 100 then RiskLevel.high else RiskLevel.moderate,
          interpretation := "Elevated liver enzymes",
          recommendations := ["Liver ultrasound", "Avoid alcohol",
                              "Hepatology consultation"] }],
       [])
    else ([], [])) o

/-- ALT rule of _analyze_labs (lines 304-319). -/
def altRule (o : Option ℚ) : List DiagnosticFinding × List ConditionEntry :=
  onPresent ([], []) (fun a =>
    if a > 41 then
      ([{ category := "Liver Function", parameter := "SGPT/ALT",
          value := a, normal_range := "7-41 U/L",
          status := if a > 100 then RiskLevel.high else RiskLevel.moderate,
          interpretation := "Liver stress or damage",
          recommendations := ["Repeat liver function tests", "Viral hepatitis screening",
                              "Avoid hepatotoxic drugs"] }],
       [{ condition := "Liver Disease (suspected)", confidence := "Moderate",
          description := "Elevated liver enzymes suggest liver inflammation or damage" }])
    else ([], [])) o

/-- Thyroid rule of _analyze_labs (lines 322-353). -/
def tshRule (o : Option ℚ) : List DiagnosticFinding × List ConditionEntry :=
  onPresent ([], []) (fun t =>
    if t < 0.4 then
      ([{ category := "Thyroid Function", parameter := "TSH",
          value := t, normal_range := "0.4-4.0 mIU/L",
          status := RiskLevel.moderate,
          interpretation := "Hyperthyroidism (overactive thyroid)",
          recommendations := ["Thyroid hormone levels (T3, T4)", "Endocrinology referral",
                              "Thyroid ultrasound"] }],
       [{ condition := "Hyperthyroidism", confidence := "Moderate",
          description := "Low TSH suggests overactive thyroid" }])
    else if t > 4.0 then
      ([{ category := "Thyroid Function", parameter := "TSH",
          value := t, normal_range := "0.4-4.0 mIU/L",
          status := if t < 10 then RiskLevel.moderate else RiskLevel.high,
          interpretation := "Hypothyroidism (underactive thyroid)",
          recommendations := ["Thyroid hormone replacement", "Repeat TSH in 6-8 weeks",
                              "Monitor symptoms"] }],
       [{ condition := "Hypothyroidism",
          confidence := if t > 10 then "High" else "Moderate",
          description := "Elevated TSH indicates underactive thyroid" }])
    else ([], [])) o

/-- Infection markers rule of _analyze_labs (lines 356-377). -/
def wbcRule (o : Option ℚ) : List DiagnosticFinding × List ConditionEntry :=
  onPresent ([], []) (fun w =>
    if w > 11000 then
      ([{ category := "Complete Blood Count", parameter := "WBC Count",
          value := w, normal_range := "4,000-11,000 cells/μL",
          status := if w > 15000 then RiskLevel.high else RiskLevel.moderate,
          interpretation := "Leukocytosis - possible infection or inflammation",
          recommendations := ["Identify infection source", "Blood culture if fever present",
                              "Monitor closely"] }],
       [])
    else if w < 4000 then
      ([{ category := "Complete Blood Count", parameter := "WBC Count",
          value := w, normal_range := "4,000-11,000 cells/μL",
          status := RiskLevel.moderate,
          interpretation := "Leukopenia - reduced white blood cells",
          recommendations := ["Check for bone marrow issues", "Review medications",
                              "Hematology consultation"] }],
       [])
    else ([], [])) o

/-- Vitamin D rule of _analyze_labs (lines 380-390). -/
def vitaminDRule (o : Option ℚ) : List DiagnosticFinding × List ConditionEntry :=
  onPresent ([], []) (fun d =>
    if d < 20 then
      ([{ category := "Vitamins", parameter := "Vitamin D",
          value := d, normal_range := "20-50 ng/mL",
          status := if d < 12 then RiskLevel.moderate else RiskLevel.low,
          interpretation := "Vitamin D deficiency",
          recommendations := ["Vitamin D supplementation", "Sunlight exposure",
                              "Calcium intake"] }],
       [])
    else ([], [])) o

/-- Vitamin B12 rule of _analyze_labs (lines 392-401). -/
def vitaminB12Rule (o : Option ℚ) : List DiagnosticFinding × List ConditionEntry :=
  onPresent ([], []) (fun b =>
    if b < 200 then
      ([{ category := "Vitamins", parameter := "Vitamin B12",
          value := b, normal_range := "200-900 pg/mL",
          status := RiskLevel.moderate,
          interpretation := "Vitamin B12 deficiency",
          recommendations := ["B12 supplementation (oral or injections)",
                              "Check for pernicious anemia", "Dietary assessment"] }],
       [])
    else ([], [])) o

/-- _analyze_labs (lines 169-403): findings and conditions appended in
the fixed evaluation order of the source; the age argument is accepted
and unused, as in the source. -/
def analyze_labs (labs : LabResults) (age : Int) (gender : String) :
    List DiagnosticFinding × List ConditionEntry :=
  let r1 := glucoseRule labs.fasting_glucose
  let r2 := hba1cRule labs.hba1c
  let r3 := totalCholesterolRule labs.total_cholesterol
  let r4 := ldlRule labs.ldl_cholesterol
  let r5 := hdlRule labs.hdl_cholesterol
  let r6 := hemoglobinRule labs.hemoglobin gender
  let r7 := creatinineRule labs.creatinine gender
  let r8 := astRule labs.sgot_ast
  let r9 := altRule labs.sgpt_alt
  let r10 := tshRule labs.tsh
  let r11 := wbcRule labs.wbc_count
  let r12 := vitaminDRule labs.vitamin_d
  let r13 := vitaminB12Rule labs.vitamin_b12
  (r1.1 ++ r2.1 ++ r3.1 ++ r4.1 ++ r5.1 ++ r6.1 ++ r7.1 ++ r8.1 ++ r9.1 ++
     r10.1 ++ r11.1 ++ r12.1 ++ r13.1,
   r1.2 ++ r2.2 ++ r3.2 ++ r4.2 ++ r5.2 ++ r6.2 ++ r7.2 ++ r8.2 ++ r9.2 ++
     r10.2 ++ r11.2 ++ r12.2 ++ r13.2)

/-- The concatenated lower-cased symptom text searched by the correlator
(line 408). -/
def symptom_text (s : Symptoms) : String :=
  s.chief_complaint.toLower ++ " " ++ (String.intercalate " " s.symptoms_list).toLower

/-- any(word in symptom_text for word in words). -/
def anyKeyword (text : String) (words : List String) : Bool :=
  words.any (fun w => strContains text w)

/-- Diabetes symptoms rule of _analyze_symptoms (lines 411-417); the lab
gate reads labs and labs.fasting_glucose with Python truthiness. -/
def diabetesSymptomRule (text : String) (labs : Option LabResults) : List ConditionEntry :=
  if anyKeyword text ["thirst", "urination", "frequent urination", "hunger", "fatigue"] then
    (match labs with
     | none => []
     | some l =>
       onPresent [] (fun g =>
         if g > 100 then
           [{ condition := "Diabetes Mellitus", confidence := "High",
              description := "Classic diabetic symptoms with elevated blood sugar" }]
         else []) l.fasting_glucose)
  else []

/-- Hyperthyroidism symptoms rule (lines 420-425). -/
def hyperthyroidSymptomRule (text : String) : List ConditionEntry :=
  if anyKeyword text ["weight loss", "anxiety", "tremor", "palpitation"] then
    [{ condition := "Hyperthyroidism", confidence := "Moderate",
       description := "Symptoms consistent with overactive thyroid - TSH test needed" }]
  else []

/-- Hypothyroidism symptoms rule (lines 427-432). -/
def hypothyroidSymptomRule (text : String) : List ConditionEntry :=
  if anyKeyword text ["weight gain", "cold intolerance", "constipation", "fatigue"] then
    [{ condition := "Hypothyroidism", confidence := "Moderate",
       description := "Symptoms consistent with underactive thyroid - TSH test needed" }]
  else []

/-- Anemia symptoms rule (lines 435-441). -/
def anemiaSymptomRule (text : String) (labs : Option LabResults) : List ConditionEntry :=
  if anyKeyword text ["fatigue", "weakness", "pale", "dizziness", "shortness of breath"] then
    (match labs with
     | none => []
     | some l =>
       onPresent [] (fun hb =>
         if hb < 12 then
           [{ condition := "Anemia", confidence := "High",
              description := "Fatigue and weakness with low hemoglobin" }]
         else []) l.hemoglobin)
  else []

/-- Cardiac symptoms rule (lines 444-449). -/
def cardiacSymptomRule (text : String) : List ConditionEntry :=
  if anyKeyword text ["chest pain", "breathlessness", "palpitation"] then
    [{ condition := "Cardiovascular Disease (suspected)", confidence := "Moderate",
       description := "Cardiac symptoms - ECG and cardiac markers recommended" }]
  else []

/-- _analyze_symptoms (lines 405-451): the five keyword rules evaluated
independently, conditions appended in source order. -/
def analyze_symptoms (s : Symptoms) (labs : Option LabResults) : List ConditionEntry :=
  let text := symptom_text s
  diabetesSymptomRule text labs ++ hyperthyroidSymptomRule text ++
    hypothyroidSymptomRule text ++ anemiaSymptomRule text labs ++
    cardiacSymptomRule text

/-- _calculate_overall_risk (lines 504-523): the Python max over the
nonempty list of scores, mapped back through the score table. -/
def calculate_overall_risk (findings : List DiagnosticFinding) : RiskLevel :=
  match findings with
  | [] => RiskLevel.normal
  | f :: fs =>
    score_to_risk (fs.foldl (fun m g => max m (risk_score g.status)) (risk_score f.status))

/-- _generate_immediate_actions (lines 525-542).  The source indexes
recommendations[0]; headD "" is the total counterpart, and every emitted
finding has a non-empty recommendation list (see the shape lemmas), so
the two agree on all reachable inputs. -/
def generate_immediate_actions (findings : List DiagnosticFinding) : List String :=
  let critical_findings := findings.filter (fun f => f.status = RiskLevel.critical)
  let high_findings := findings.filter (fun f => f.status = RiskLevel.high)
  let actions :=
    (if critical_findings.isEmpty then [] else
      "⚠️ IMMEDIATE MEDICAL ATTENTION REQUIRED" ::
        critical_findings.map (fun f =>
          "• Address " ++ f.parameter ++ ": " ++ f.interpretation)) ++
    (if high_findings.isEmpty then [] else
      "High-priority items requiring prompt attention:" ::
        (high_findings.take 3).map (fun f =>
          "• " ++ f.parameter ++ ": " ++ f.recommendations.headD ""))
  if actions.isEmpty then ["No immediate actions required"] else actions

/-- Insert a string into an accumulator unless already there: models
adding to the Python set of _recommend_followup_tests; the source then
lists the set in an unspecified hash order, modelled here as first
insertion order (no theorem below depends on the order). -/
def addTest (acc : List String) (t : String) : List String :=
  if t ∈ acc then acc else acc ++ [t]

/-- The test bundle contributed by one finding (lines 548-574). -/
def testsForFinding (f : DiagnosticFinding) : List String :=
  let interpLower := f.interpretation.toLower
  let paramLower := f.parameter.toLower
  (if strContains interpLower "diabetes" ∨ strContains paramLower "glucose" then
     ["HbA1c test (if not done)", "Oral Glucose Tolerance Test"] else []) ++
  (if strContains interpLower "kidney" then
     ["Complete Metabolic Panel", "Urinalysis", "Kidney Ultrasound"] else []) ++
  (if strContains interpLower "liver" then
     ["Complete Liver Function Panel", "Viral Hepatitis Screening",
      "Liver Ultrasound"] else []) ++
  (if strContains interpLower "thyroid" then
     ["Complete Thyroid Panel (TSH, T3, T4)", "Thyroid Antibodies"] else []) ++
  (if strContains interpLower "anemia" then
     ["Iron Studies (Serum Iron, Ferritin, TIBC)", "Peripheral Blood Smear"] else []) ++
  (if strContains interpLower "heart" ∨ strContains interpLower "cardiac" then
     ["ECG (Electrocardiogram)", "Echocardiogram", "Cardiac Enzyme Tests"] else [])

/-- _recommend_followup_tests (lines 544-576). -/
def recommend_followup_tests (findings : List DiagnosticFinding) : List String :=
  let tests := findings.foldl (fun acc f => (testsForFinding f).foldl addTest acc) []
  if tests.isEmpty then ["Regular health checkup in 6 months"] else tests

/-- _generate_recommendations (lines 578-613). -/
def generate_recommendations (patient : Patient) (findings : List DiagnosticFinding) :
    List String :=
  (if patient.age > 40 then ["Annual comprehensive health screening recommended"] else []) ++
  (match patient.vital_signs with
   | some v => if v.get_bmi ≥ 25 then ["Weight management program with diet and exercise"] else []
   | none => []) ++
  (if findings.any (fun f => strContains f.interpretation.toLower "diabetes") ∨
      findings.any (fun f => strContains f.interpretation.toLower "cardio" ∨
                             strContains f.interpretation.toLower "cholesterol") then
     ["Mediterranean or DASH diet recommended",
      "30 minutes of moderate exercise 5 days/week",
      "Stress management and adequate sleep (7-8 hours)"] else []) ++
  (match patient.medical_history with
   | some h =>
     (if h.smoking then ["Smoking cessation program strongly recommended"] else []) ++
       (if h.alcohol_consumption then ["Limit alcohol consumption"] else [])
   | none => []) ++
  ["Regular follow-up with primary care physician",
   "Maintain hydration (8-10 glasses of water daily)"]

/-- Deduplicate keeping first occurrences: models the Python set of
categories in _generate_summary (hash order unspecified in the source;
no theorem below depends on the order). -/
def dedupFirst (l : List String) : List String :=
  l.foldl (fun acc s => if s ∈ acc then acc else acc ++ [s]) []

/-- _generate_summary (lines 615-639). -/
def generate_summary (patient : Patient) (overall_risk : RiskLevel)
    (findings : List DiagnosticFinding) : String :=
  let critical_count := (findings.filter (fun f => f.status = RiskLevel.critical)).length
  let high_count := (findings.filter (fun f => f.status = RiskLevel.high)).length
  let moderate_count := (findings.filter (fun f => f.status = RiskLevel.moderate)).length
  let riskWord := match overall_risk with
    | .normal => "NORMAL" | .low => "LOW" | .moderate => "MODERATE"
    | .high => "HIGH" | .critical => "CRITICAL"
  "Diagnostic Analysis for Patient " ++ patient.name ++ " (ID: " ++
    patient.patient_id ++ ")\n\n" ++
  "Overall Risk Level: " ++ riskWord ++ "\n\n" ++
  (if critical_count > 0 then
     "⚠️ CRITICAL: " ++ toString critical_count ++
       " critical finding(s) requiring immediate attention.\n" else "") ++
  (if high_count > 0 then
     "⚠️ HIGH: " ++ toString high_count ++
       " high-priority finding(s) requiring prompt medical attention.\n" else "") ++
  (if moderate_count > 0 then
     "⚠️ MODERATE: " ++ toString moderate_count ++
       " finding(s) requiring monitoring and lifestyle modifications.\n" else "") ++
  (if findings.isEmpty then
     "No significant abnormalities detected. All parameters within normal ranges.\n"
   else
     "\nTotal findings: " ++ toString findings.length ++ "\n" ++
       "Key areas of concern: " ++
       String.intercalate ", " (dedupFirst (findings.map (fun f => f.category))) ++ "\n") ++
  "\nThis is an automated preliminary analysis. Please consult with a healthcare professional for proper diagnosis and treatment."

/-- analyze_patient (lines 51-98): the full pipeline. -/
def analyze_patient (patient : Patient) : DiagnosticReport :=
  let vitalFindings := match patient.vital_signs with
    | some v => analyze_vitals v patient.age
    | none => []
  let labPair := match patient.lab_results with
    | some l => analyze_labs l patient.age patient.gender.value
    | none => ([], [])
  let symptomConds := match patient.symptoms with
    | some s => analyze_symptoms s patient.lab_results
    | none => []
  let findings := vitalFindings ++ labPair.1
  let possible_conditions := labPair.2 ++ symptomConds
  let overall_risk := calculate_overall_risk findings
  { patient_id := patient.patient_id
    findings := findings
    possible_conditions := possible_conditions
    overall_risk := overall_risk
    immediate_actions := generate_immediate_actions findings
    follow_up_tests := recommend_followup_tests findings
    general_recommendations := generate_recommendations patient findings
    summary := generate_summary patient overall_risk findings }

/-! Spec-side definitions, written from the wording of the claims, to be
compared with the engine above. -/

/-- Maximum of two risk levels under the ordering
Normal=0 < Low=1 < Moderate=2 < High=3 < Critical=4 (claim wording). -/
def riskMax (a b : RiskLevel) : RiskLevel :=
  if risk_score a ≤ risk_score b then b else a

/-- Maximum of a list of risk levels, Normal when the list is empty
(claim wording). -/
def listRiskMax (l : List RiskLevel) : RiskLevel :=
  l.foldl riskMax RiskLevel.normal

/-- The immediate-actions list as described by claim C6: an
emergency-attention marker plus one line per Critical finding when any
exists, then a header plus one line for at most the first 3 High
findings when any exists, and exactly the single default line when
there are neither Critical nor High findings. -/
def immediateActionsSpec (findings : List DiagnosticFinding) : List String :=
  let crit := findings.filter (fun f => f.status = RiskLevel.critical)
  let high := findings.filter (fun f => f.status = RiskLevel.high)
  if crit.isEmpty ∧ high.isEmpty then ["No immediate actions required"]
  else
    (if crit.isEmpty then [] else
      "⚠️ IMMEDIATE MEDICAL ATTENTION REQUIRED" ::
        crit.map (fun f => "• Address " ++ f.parameter ++ ": " ++ f.interpretation)) ++
    (if high.isEmpty then [] else
      "High-priority items requiring prompt attention:" ::
        (high.take 3).map (fun f => "• " ++ f.parameter ++ ": " ++ f.recommendations.headD ""))

/-- Replace a zero measurement by an absent one (claim C8 wording). -/
def clearZero (o : Option ℚ) : Option ℚ :=
  match o with
  | some x => if x = 0 then none else some x
  | none => none

/-- clearZero applied to every lab field. -/
def clearZeroLabs (l : LabResults) : LabResults where
  hemoglobin := clearZero l.hemoglobin
  wbc_count := clearZero l.wbc_count
  platelet_count := clearZero l.platelet_count
  rbc_count := clearZero l.rbc_count
  fasting_glucose := clearZero l.fasting_glucose
  random_glucose := clearZero l.random_glucose
  hba1c := clearZero l.hba1c
  total_cholesterol := clearZero l.total_cholesterol
  ldl_cholesterol := clearZero l.ldl_cholesterol
  hdl_cholesterol := clearZero l.hdl_cholesterol
  triglycerides := clearZero l.triglycerides
  creatinine := clearZero l.creatinine
  bun := clearZero l.bun
  uric_acid := clearZero l.uric_acid
  sgot_ast := clearZero l.sgot_ast
  sgpt_alt := clearZero l.sgpt_alt
  bilirubin_total := clearZero l.bilirubin_total
  tsh := clearZero l.tsh
  t3 := clearZero l.t3
  t4 := clearZero l.t4
  sodium := clearZero l.sodium
  potassium := clearZero l.potassium
  vitamin_d := clearZero l.vitamin_d
  vitamin_b12 := clearZero l.vitamin_b12

/-- A patient with every zero-valued lab measurement replaced by an
absent one. -/
def clearZeroPatient (p : Patient) : Patient :=
  { p with lab_results := p.lab_results.map clearZeroLabs }

/-- Predicate picking out a "Diabetes Mellitus" / High condition entry. -/
def isDiabetesHigh (c : ConditionEntry) : Bool :=
  c.condition == "Diabetes Mellitus" && c.confidence == "High"

/-! Concrete inputs used by witnesses and counterexamples. -/

/-- Labs with hemoglobin 11.5 g/dL and nothing else. -/
def labsHb115 : LabResults := { hemoglobin := some 11.5 }

/-- A female patient with hemoglobin 11.5 g/dL. -/
def patientHb115F : Patient :=
  { patient_id := "W2F", name := "W", age := 30, gender := Gender.female,
    lab_results := some labsHb115 }

/-- A male patient with hemoglobin 11.5 g/dL. -/
def patientHb115M : Patient :=
  { patient_id := "W2M", name := "W", age := 30, gender := Gender.male,
    lab_results := some labsHb115 }

/-- Labs with fasting glucose 140 mg/dL and HbA1c 7.2 %. -/
def labsGlu140 : LabResults := { fasting_glucose := some 140, hba1c := some 7.2 }

/-- Symptoms whose text holds only "polyuria" and "polydipsia". -/
def symptomsPolyuria : Symptoms := { chief_complaint := "polyuria and polydipsia" }

/-- The diabetes scenario patient whose symptom text holds only
"polyuria" and "polydipsia". -/
def patientPolyuria : Patient :=
  { patient_id := "W3", name := "W", age := 45, gender := Gender.male,
    lab_results := some labsGlu140,
    symptoms := some symptomsPolyuria }

/-- The symptoms of the diabetes patient of the repository test suite,
whose chief complaint holds the keywords "thirst" and "urination". -/
def symptomsThirst : Symptoms :=
  { chief_complaint := "Increased thirst and urination",
    symptoms_list := ["polyuria", "polydipsia", "fatigue"] }

/-- The diabetes scenario patient of the repository test suite. -/
def patientThirst : Patient :=
  { patient_id := "W3b", name := "W", age := 45, gender := Gender.male,
    lab_results := some labsGlu140,
    symptoms := some symptomsThirst }

/-- Labs with fasting glucose exactly 100 mg/dL. -/
def labsGlu100 : LabResults := { fasting_glucose := some 100 }

/-- A patient with fasting glucose exactly 100 mg/dL. -/
def patientGlu100 : Patient :=
  { patient_id := "W5", name := "W", age := 30, gender := Gender.male,
    lab_results := some labsGlu100 }

/-- A patient with no vitals, no labs and symptoms "anxiety". -/
def patientAnxiety : Patient :=
  { patient_id := "W7", name := "W", age := 30, gender := Gender.male,
    symptoms := some { chief_complaint := "anxiety" } }

/-- A patient with no vitals, no labs and no symptoms. -/
def patientEmpty : Patient :=
  { patient_id := "W7b", name := "W", age := 30, gender := Gender.male }

/-- A patient with only a fever of 39.5°C. -/
def patientFever : Patient :=
  { patient_id := "W10", name := "W", age := 30, gender := Gender.male,
    vital_signs := some { temperature := 39.5, blood_pressure_systolic := 118,
                          blood_pressure_diastolic := 78, heart_rate := 72,
                          respiratory_rate := 16, oxygen_saturation := 98,
                          weight := 70, height := 175 } }

/-- The fever finding emitted for patientFever. -/
def feverFinding : DiagnosticFinding :=
  { category := "Vital Signs", parameter := "Body Temperature",
    value := 39.5, normal_range := "36.5-37.5°C",
    status := RiskLevel.high,
    interpretation := "Fever detected - possible infection or inflammatory condition",
    recommendations := ["Monitor temperature regularly", "Stay hydrated",
                        "Consider antipyretics if >38.5°C"] }

/-- Labs with TSH exactly 10 mIU/L. -/
def labsTsh10 : LabResults := { tsh := some 10 }

/-- A patient with TSH exactly 10 mIU/L. -/
def patientTsh10 : Patient :=
  { patient_id := "W4", name := "W", age := 30, gender := Gender.male,
    lab_results := some labsTsh10 }

/-! Theorems. -/

theorem score_to_risk_risk_score (a : RiskLevel) : score_to_risk (risk_score a) = a := by
  cases a <;> rfl

theorem risk_score_riskMax (a b : RiskLevel) :
    risk_score (riskMax a b) = max (risk_score a) (risk_score b) := by
  unfold riskMax
  split
  · exact (max_eq_right (by assumption)).symm
  · exact (max_eq_left (le_of_not_le (by assumption))).symm

theorem foldl_score (fs : List DiagnosticFinding) : ∀ a : RiskLevel,
    score_to_risk (fs.foldl (fun m g => max m (risk_score g.status)) (risk_score a)) =
      fs.foldl (fun m g => riskMax m g.status) a := by
  induction fs with
  | nil => intro a; exact score_to_risk_risk_score a
  | cons f fs ih =>
    intro a
    simp only [List.foldl_cons]
    rw [← risk_score_riskMax]
    exact ih (riskMax a f.status)

theorem calculate_overall_risk_eq (l : List DiagnosticFinding) :
    calculate_overall_risk l = listRiskMax (l.map (fun f => f.status)) := by
  cases l with
  | nil => rfl
  | cons f fs =>
    unfold calculate_overall_risk listRiskMax
    rw [List.map_cons, List.foldl_cons, List.foldl_map]
    have hnorm : riskMax RiskLevel.normal f.status = f.status := by
      cases f.status <;> rfl
    rw [hnorm]
    exact foldl_score fs f.status

/-- C1: for every Patient, the Report returned by analyze has
overall_risk equal to the maximum, under the ordering
Normal=0 < Low=1 < Moderate=2 < High=3 < Critical=4, of the status
fields of all emitted findings, and equal to Normal when the findings
list is empty. -/
theorem C1_overall_risk_is_max (p : Patient) :
    (analyze_patient p).overall_risk =
      listRiskMax ((analyze_patient p).findings.map (fun f => f.status)) ∧
    ((analyze_patient p).findings = [] →
      (analyze_patient p).overall_risk = RiskLevel.normal) := by
  have hproj : (analyze_patient p).overall_risk =
      calculate_overall_risk ((analyze_patient p).findings) := rfl
  constructor
  · rw [hproj]
    exact calculate_overall_risk_eq _
  · intro h
    rw [hproj, h]
    rfl

theorem generate_immediate_actions_eq_spec (findings : List DiagnosticFinding) :
    generate_immediate_actions findings = immediateActionsSpec findings := by
  unfold generate_immediate_actions immediateActionsSpec
  by_cases hc : (findings.filter (fun f => f.status = RiskLevel.critical)).isEmpty <;>
    by_cases hh : (findings.filter (fun f => f.status = RiskLevel.high)).isEmpty <;>
    simp [hc, hh]

/-- C6: for every Patient, the immediate_actions list is the
emergency-attention marker followed by one line per Critical finding
when any Critical finding exists, then a header followed by one line
for at most the first 3 High findings in evaluation order when any High
finding exists, and exactly the single default no-action line when
there are no Critical and no High findings. -/
theorem C6_immediate_actions_shape (p : Patient) :
    (analyze_patient p).immediate_actions =
      immediateActionsSpec ((analyze_patient p).findings) := by
  have hproj : (analyze_patient p).immediate_actions =
      generate_immediate_actions ((analyze_patient p).findings) := rfl
  rw [hproj]
  exact generate_immediate_actions_eq_spec _


/-! Shape lemmas: each classifier only emits findings with its fixed
parameter name and a non-empty recommendation list, and only emits
condition entries with its fixed condition name. -/

theorem assess_blood_pressure_rec (s d : Int)
    (h : (assess_blood_pressure s d).1 ≠ RiskLevel.normal) :
    (assess_blood_pressure s d).2.2 ≠ [] := by
  unfold assess_blood_pressure at *
  split_ifs at * <;> simp_all

theorem assess_bmi_rec (b : Rat) (h : (assess_bmi b).1 ≠ RiskLevel.normal) :
    (assess_bmi b).2.2 ≠ [] := by
  unfold assess_bmi at *
  split_ifs at * <;> simp_all

theorem tempFindings_shape (v : VitalSigns) (f : DiagnosticFinding)
    (h : f ∈ tempFindings v) :
    f.parameter = "Body Temperature" ∧ f.recommendations ≠ [] := by
  simp only [tempFindings] at h
  split at h
  · simp at h
    subst h
    exact ⟨rfl, by simp⟩
  · simp at h

theorem bpFindings_shape (v : VitalSigns) (f : DiagnosticFinding)
    (h : f ∈ bpFindings v) :
    f.parameter = "Blood Pressure" ∧ f.recommendations ≠ [] := by
  simp only [bpFindings] at h
  split at h
  · simp at h
    subst h
    refine ⟨rfl, ?_⟩
    exact assess_blood_pressure_rec _ _ (by assumption)
  · simp at h

theorem hrFindings_shape (v : VitalSigns) (f : DiagnosticFinding)
    (h : f ∈ hrFindings v) :
    f.parameter = "Heart Rate" ∧ f.recommendations ≠ [] := by
  simp only [hrFindings] at h
  split at h
  · simp at h
    subst h
    exact ⟨rfl, by simp⟩
  · simp at h

theorem o2Findings_shape (v : VitalSigns) (f : DiagnosticFinding)
    (h : f ∈ o2Findings v) :
    f.parameter = "Oxygen Saturation" ∧ f.recommendations ≠ [] := by
  simp only [o2Findings] at h
  split at h
  · simp at h
    subst h
    exact ⟨rfl, by simp⟩
  · simp at h

theorem bmiFindings_shape (v : VitalSigns) (f : DiagnosticFinding)
    (h : f ∈ bmiFindings v) :
    f.parameter = "BMI" ∧ f.recommendations ≠ [] := by
  simp only [bmiFindings] at h
  split at h
  · simp at h
    subst h
    refine ⟨rfl, ?_⟩
    exact assess_bmi_rec _ (by assumption)
  · simp at h

theorem hba1cRule_shape (o : Option Rat) (f : DiagnosticFinding)
    (h : f ∈ (hba1cRule o).1) :
    f.parameter = "HbA1c" ∧ f.recommendations ≠ [] := by
  cases o with
  | none => simp [hba1cRule, onPresent] at h
  | some x =>
    simp only [hba1cRule, onPresent] at h
    split at h
    · simp at h
    · split at h
      · simp at h
        subst h
        exact ⟨rfl, by simp⟩
      · simp at h

theorem tshRule_shape (o : Option Rat) (f : DiagnosticFinding)
    (h : f ∈ (tshRule o).1) :
    f.parameter = "TSH" ∧ f.recommendations ≠ [] := by
  cases o with
  | none => simp [tshRule, onPresent] at h
  | some x =>
    simp only [tshRule, onPresent] at h
    split at h
    · simp at h
    · split at h
      · simp at h
        subst h
        exact ⟨rfl, by simp⟩
      · split at h
        · simp at h
          subst h
          exact ⟨rfl, by simp⟩
        · simp at h

theorem tshRule_conds (o : Option Rat) (c : ConditionEntry)
    (h : c ∈ (tshRule o).2) :
    c.condition = "Hyperthyroidism" ∨ c.condition = "Hypothyroidism" := by
  cases o with
  | none => simp [tshRule, onPresent] at h
  | some x =>
    simp only [tshRule, onPresent] at h
    split at h
    · simp at h
    · split at h
      · simp at h
        subst h
        left
        rfl
      · split at h
        · simp at h
          subst h
          right
          rfl
        · simp at h

theorem glucoseRule_conds_gate (o : Option Rat) (c : ConditionEntry)
    (h : c ∈ (glucoseRule o).2) :
    ∃ x, o = some x ∧ x ≠ 0 ∧ x ≥ 100 := by
  cases o with
  | none => simp [glucoseRule, onPresent] at h
  | some x =>
    simp only [glucoseRule, onPresent] at h
    split at h
    · simp at h
    · split at h
      · exact ⟨x, rfl, by assumption, by assumption⟩
      · simp at h

theorem glucoseRule_shape (o : Option Rat) (f : DiagnosticFinding)
    (h : f ∈ (glucoseRule o).1) :
    f.parameter = "Fasting Glucose" ∧ f.recommendations ≠ [] := by
  cases o with
  | none => simp [glucoseRule, onPresent] at h
  | some x =>
    simp only [glucoseRule, onPresent] at h
    split at h
    · simp at h
    · split at h
      · simp at h
        subst h
        exact ⟨rfl, by simp⟩
      · simp at h

theorem totalCholesterolRule_shape (o : Option Rat) (f : DiagnosticFinding)
    (h : f ∈ (totalCholesterolRule o).1) :
    f.parameter = "Total Cholesterol" ∧ f.recommendations ≠ [] := by
  cases o with
  | none => simp [totalCholesterolRule, onPresent] at h
  | some x =>
    simp only [totalCholesterolRule, onPresent] at h
    split at h
    · simp at h
    · split at h
      · simp at h
        subst h
        exact ⟨rfl, by simp⟩
      · simp at h

theorem ldlRule_shape (o : Option Rat) (f : DiagnosticFinding)
    (h : f ∈ (ldlRule o).1) :
    f.parameter = "LDL Cholesterol" ∧ f.recommendations ≠ [] := by
  cases o with
  | none => simp [ldlRule, onPresent] at h
  | some x =>
    simp only [ldlRule, onPresent] at h
    split at h
    · simp at h
    · split at h
      · simp at h
        subst h
        exact ⟨rfl, by simp⟩
      · simp at h

theorem hdlRule_shape (o : Option Rat) (f : DiagnosticFinding)
    (h : f ∈ (hdlRule o).1) :
    f.parameter = "HDL Cholesterol" ∧ f.recommendations ≠ [] := by
  cases o with
  | none => simp [hdlRule, onPresent] at h
  | some x =>
    simp only [hdlRule, onPresent] at h
    split at h
    · simp at h
    · split at h
      · simp at h
        subst h
        exact ⟨rfl, by simp⟩
      · simp at h

theorem astRule_shape (o : Option Rat) (f : DiagnosticFinding)
    (h : f ∈ (astRule o).1) :
    f.parameter = "SGOT/AST" ∧ f.recommendations ≠ [] := by
  cases o with
  | none => simp [astRule, onPresent] at h
  | some x =>
    simp only [astRule, onPresent] at h
    split at h
    · simp at h
    · split at h
      · simp at h
        subst h
        exact ⟨rfl, by simp⟩
      · simp at h

theorem altRule_shape (o : Option Rat) (f : DiagnosticFinding)
    (h : f ∈ (altRule o).1) :
    f.parameter = "SGPT/ALT" ∧ f.recommendations ≠ [] := by
  cases o with
  | none => simp [altRule, onPresent] at h
  | some x =>
    simp only [altRule, onPresent] at h
    split at h
    · simp at h
    · split at h
      · simp at h
        subst h
        exact ⟨rfl, by simp⟩
      · simp at h

theorem vitaminDRule_shape (o : Option Rat) (f : DiagnosticFinding)
    (h : f ∈ (vitaminDRule o).1) :
    f.parameter = "Vitamin D" ∧ f.recommendations ≠ [] := by
  cases o with
  | none => simp [vitaminDRule, onPresent] at h
  | some x =>
    simp only [vitaminDRule, onPresent] at h
    split at h
    · simp at h
    · split at h
      · simp at h
        subst h
        exact ⟨rfl, by simp⟩
      · simp at h

theorem vitaminB12Rule_shape (o : Option Rat) (f : DiagnosticFinding)
    (h : f ∈ (vitaminB12Rule o).1) :
    f.parameter = "Vitamin B12" ∧ f.recommendations ≠ [] := by
  cases o with
  | none => simp [vitaminB12Rule, onPresent] at h
  | some x =>
    simp only [vitaminB12Rule, onPresent] at h
    split at h
    · simp at h
    · split at h
      · simp at h
        subst h
        exact ⟨rfl, by simp⟩
      · simp at h

theorem hemoglobinRule_shape (o : Option Rat) (g : String) (f : DiagnosticFinding)
    (h : f ∈ (hemoglobinRule o g).1) :
    f.parameter = "Hemoglobin" ∧ f.recommendations ≠ [] := by
  cases o with
  | none => simp [hemoglobinRule, onPresent] at h
  | some x =>
    simp only [hemoglobinRule, onPresent] at h
    split at h
    · simp at h
    · split at h
      · simp at h
        subst h
        exact ⟨rfl, by simp⟩
      · simp at h

theorem creatinineRule_shape (o : Option Rat) (g : String) (f : DiagnosticFinding)
    (h : f ∈ (creatinineRule o g).1) :
    f.parameter = "Creatinine" ∧ f.recommendations ≠ [] := by
  cases o with
  | none => simp [creatinineRule, onPresent] at h
  | some x =>
    simp only [creatinineRule, onPresent] at h
    split at h
    · simp at h
    · split at h
      · simp at h
        subst h
        exact ⟨rfl, by simp⟩
      · simp at h

theorem wbcRule_shape (o : Option Rat) (f : DiagnosticFinding)
    (h : f ∈ (wbcRule o).1) :
    f.parameter = "WBC Count" ∧ f.recommendations ≠ [] := by
  cases o with
  | none => simp [wbcRule, onPresent] at h
  | some x =>
    simp only [wbcRule, onPresent] at h
    split at h
    · simp at h
    · split at h
      · simp at h
        subst h
        exact ⟨rfl, by simp⟩
      · split at h
        · simp at h
          subst h
          exact ⟨rfl, by simp⟩
        · simp at h

theorem hba1cRule_conds_nil (o : Option Rat) : (hba1cRule o).2 = [] := by
  cases o with
  | none => rfl
  | some x =>
    simp only [hba1cRule, onPresent]
    split
    · rfl
    · split <;> rfl

theorem ldlRule_conds_nil (o : Option Rat) : (ldlRule o).2 = [] := by
  cases o with
  | none => rfl
  | some x =>
    simp only [ldlRule, onPresent]
    split
    · rfl
    · split <;> rfl

theorem hdlRule_conds_nil (o : Option Rat) : (hdlRule o).2 = [] := by
  cases o with
  | none => rfl
  | some x =>
    simp only [hdlRule, onPresent]
    split
    · rfl
    · split <;> rfl

theorem astRule_conds_nil (o : Option Rat) : (astRule o).2 = [] := by
  cases o with
  | none => rfl
  | some x =>
    simp only [astRule, onPresent]
    split
    · rfl
    · split <;> rfl

theorem vitaminDRule_conds_nil (o : Option Rat) : (vitaminDRule o).2 = [] := by
  cases o with
  | none => rfl
  | some x =>
    simp only [vitaminDRule, onPresent]
    split
    · rfl
    · split <;> rfl

theorem vitaminB12Rule_conds_nil (o : Option Rat) : (vitaminB12Rule o).2 = [] := by
  cases o with
  | none => rfl
  | some x =>
    simp only [vitaminB12Rule, onPresent]
    split
    · rfl
    · split <;> rfl

theorem wbcRule_conds_nil (o : Option Rat) : (wbcRule o).2 = [] := by
  cases o with
  | none => rfl
  | some x =>
    simp only [wbcRule, onPresent]
    split
    · rfl
    · split
      · rfl
      · split <;> rfl

theorem totalCholesterolRule_conds (o : Option Rat) (c : ConditionEntry)
    (h : c ∈ (totalCholesterolRule o).2) :
    c.condition = "Hyperlipidemia" := by
  cases o with
  | none => simp [totalCholesterolRule, onPresent] at h
  | some x =>
    simp only [totalCholesterolRule, onPresent] at h
    split at h
    · simp at h
    · split at h
      · simp at h
        subst h
        rfl
      · simp at h

theorem hemoglobinRule_conds (o : Option Rat) (g : String) (c : ConditionEntry)
    (h : c ∈ (hemoglobinRule o g).2) :
    c.condition = "Anemia" := by
  cases o with
  | none => simp [hemoglobinRule, onPresent] at h
  | some x =>
    simp only [hemoglobinRule, onPresent] at h
    split at h
    · simp at h
    · split at h
      · simp at h
        subst h
        rfl
      · simp at h

theorem creatinineRule_conds (o : Option Rat) (g : String) (c : ConditionEntry)
    (h : c ∈ (creatinineRule o g).2) :
    c.condition = "Chronic Kidney Disease (suspected)" := by
  cases o with
  | none => simp [creatinineRule, onPresent] at h
  | some x =>
    simp only [creatinineRule, onPresent] at h
    split at h
    · simp at h
    · split at h
      · simp at h
        subst h
        rfl
      · simp at h

theorem altRule_conds (o : Option Rat) (c : ConditionEntry)
    (h : c ∈ (altRule o).2) :
    c.condition = "Liver Disease (suspected)" := by
  cases o with
  | none => simp [altRule, onPresent] at h
  | some x =>
    simp only [altRule, onPresent] at h
    split at h
    · simp at h
    · split at h
      · simp at h
        subst h
        rfl
      · simp at h


theorem hyperthyroidSymptomRule_conds (text : String) (c : ConditionEntry)
    (h : c ∈ hyperthyroidSymptomRule text) : c.condition = "Hyperthyroidism" := by
  simp only [hyperthyroidSymptomRule] at h
  split at h
  · simp at h
    subst h
    rfl
  · simp at h

theorem hypothyroidSymptomRule_conds (text : String) (c : ConditionEntry)
    (h : c ∈ hypothyroidSymptomRule text) : c.condition = "Hypothyroidism" := by
  simp only [hypothyroidSymptomRule] at h
  split at h
  · simp at h
    subst h
    rfl
  · simp at h

theorem cardiacSymptomRule_conds (text : String) (c : ConditionEntry)
    (h : c ∈ cardiacSymptomRule text) :
    c.condition = "Cardiovascular Disease (suspected)" := by
  simp only [cardiacSymptomRule] at h
  split at h
  · simp at h
    subst h
    rfl
  · simp at h

theorem anemiaSymptomRule_conds (text : String) (labs : Option LabResults)
    (c : ConditionEntry) (h : c ∈ anemiaSymptomRule text labs) :
    c.condition = "Anemia" := by
  simp only [anemiaSymptomRule] at h
  split at h
  · cases labs with
    | none => simp at h
    | some l =>
      dsimp only at h
      rcases hm : l.hemoglobin with _ | x
      · rw [hm] at h
        simp [onPresent] at h
      · rw [hm] at h
        simp only [onPresent] at h
        split at h
        · simp at h
        · split at h
          · simp at h
            subst h
            rfl
          · simp at h
  · simp at h

theorem diabetesSymptomRule_gate (text : String) (labs : Option LabResults)
    (c : ConditionEntry) (h : c ∈ diabetesSymptomRule text labs) :
    c.condition = "Diabetes Mellitus" ∧ c.confidence = "High" ∧
      ∃ l g, labs = some l ∧ l.fasting_glucose = some g ∧ g ≠ 0 ∧ g > 100 := by
  simp only [diabetesSymptomRule] at h
  split at h
  · cases labs with
    | none => simp at h
    | some l =>
      dsimp only at h
      rcases hg : l.fasting_glucose with _ | g
      · rw [hg] at h
        simp [onPresent] at h
      · rw [hg] at h
        simp only [onPresent] at h
        split at h
        · simp at h
        · split at h
          · simp at h
            subst h
            exact ⟨rfl, rfl, l, g, rfl, hg, by assumption, by assumption⟩
          · simp at h
  · simp at h

/-! Decomposition lemmas for the pipeline. -/

theorem analyze_patient_findings (p : Patient) :
    (analyze_patient p).findings =
      (match p.vital_signs with
        | some v => analyze_vitals v p.age
        | none => []) ++
      (match p.lab_results with
        | some l => (analyze_labs l p.age p.gender.value).1
        | none => []) := by
  rcases hv : p.vital_signs with _ | v <;> rcases hl : p.lab_results with _ | l <;>
    simp [analyze_patient, hv, hl]

theorem analyze_patient_conds (p : Patient) :
    (analyze_patient p).possible_conditions =
      (match p.lab_results with
        | some l => (analyze_labs l p.age p.gender.value).2
        | none => []) ++
      (match p.symptoms with
        | some s => analyze_symptoms s p.lab_results
        | none => []) := by
  rcases hl : p.lab_results with _ | l <;> rcases hs : p.symptoms with _ | s <;>
    simp [analyze_patient, hl, hs]

theorem mem_analyze_labs_fst (labs : LabResults) (age : Int) (g : String)
    (f : DiagnosticFinding) :
    f ∈ (analyze_labs labs age g).1 ↔
      f ∈ (glucoseRule labs.fasting_glucose).1 ∨
      f ∈ (hba1cRule labs.hba1c).1 ∨
      f ∈ (totalCholesterolRule labs.total_cholesterol).1 ∨
      f ∈ (ldlRule labs.ldl_cholesterol).1 ∨
      f ∈ (hdlRule labs.hdl_cholesterol).1 ∨
      f ∈ (hemoglobinRule labs.hemoglobin g).1 ∨
      f ∈ (creatinineRule labs.creatinine g).1 ∨
      f ∈ (astRule labs.sgot_ast).1 ∨
      f ∈ (altRule labs.sgpt_alt).1 ∨
      f ∈ (tshRule labs.tsh).1 ∨
      f ∈ (wbcRule labs.wbc_count).1 ∨
      f ∈ (vitaminDRule labs.vitamin_d).1 ∨
      f ∈ (vitaminB12Rule labs.vitamin_b12).1 := by
  simp [analyze_labs, List.mem_append]

theorem mem_analyze_labs_snd (labs : LabResults) (age : Int) (g : String)
    (c : ConditionEntry) :
    c ∈ (analyze_labs labs age g).2 ↔
      c ∈ (glucoseRule labs.fasting_glucose).2 ∨
      c ∈ (hba1cRule labs.hba1c).2 ∨
      c ∈ (totalCholesterolRule labs.total_cholesterol).2 ∨
      c ∈ (ldlRule labs.ldl_cholesterol).2 ∨
      c ∈ (hdlRule labs.hdl_cholesterol).2 ∨
      c ∈ (hemoglobinRule labs.hemoglobin g).2 ∨
      c ∈ (creatinineRule labs.creatinine g).2 ∨
      c ∈ (astRule labs.sgot_ast).2 ∨
      c ∈ (altRule labs.sgpt_alt).2 ∨
      c ∈ (tshRule labs.tsh).2 ∨
      c ∈ (wbcRule labs.wbc_count).2 ∨
      c ∈ (vitaminDRule labs.vitamin_d).2 ∨
      c ∈ (vitaminB12Rule labs.vitamin_b12).2 := by
  simp [analyze_labs, List.mem_append]

theorem mem_analyze_symptoms (s : Symptoms) (labs : Option LabResults)
    (c : ConditionEntry) :
    c ∈ analyze_symptoms s labs ↔
      c ∈ diabetesSymptomRule (symptom_text s) labs ∨
      c ∈ hyperthyroidSymptomRule (symptom_text s) ∨
      c ∈ hypothyroidSymptomRule (symptom_text s) ∨
      c ∈ anemiaSymptomRule (symptom_text s) labs ∨
      c ∈ cardiacSymptomRule (symptom_text s) := by
  simp [analyze_symptoms, List.mem_append]

theorem mem_analyze_vitals (v : VitalSigns) (age : Int) (f : DiagnosticFinding) :
    f ∈ analyze_vitals v age ↔
      f ∈ tempFindings v ∨ f ∈ bpFindings v ∨ f ∈ hrFindings v ∨
      f ∈ o2Findings v ∨ f ∈ bmiFindings v := by
  simp [analyze_vitals, List.mem_append]


/-- C10: every Finding emitted by any classifier carries a non-empty
recommendations list, so taking the first recommendation of each High
finding during immediate-action generation is always within bounds. -/
theorem C10_recommendations_nonempty (p : Patient) (f : DiagnosticFinding)
    (h : f ∈ (analyze_patient p).findings) : f.recommendations ≠ [] := by
  rw [analyze_patient_findings, List.mem_append] at h
  rcases h with h | h
  · rcases hv : p.vital_signs with _ | v
    · rw [hv] at h
      simp at h
    · rw [hv] at h
      dsimp only at h
      rw [mem_analyze_vitals] at h
      rcases h with h | h | h | h | h
      exacts [(tempFindings_shape v f h).2, (bpFindings_shape v f h).2,
        (hrFindings_shape v f h).2, (o2Findings_shape v f h).2,
        (bmiFindings_shape v f h).2]
  · rcases hl : p.lab_results with _ | l
    · rw [hl] at h
      simp at h
    · rw [hl] at h
      dsimp only at h
      rw [mem_analyze_labs_fst] at h
      rcases h with h | h | h | h | h | h | h | h | h | h | h | h | h
      exacts [(glucoseRule_shape _ f h).2, (hba1cRule_shape _ f h).2,
        (totalCholesterolRule_shape _ f h).2, (ldlRule_shape _ f h).2,
        (hdlRule_shape _ f h).2, (hemoglobinRule_shape _ _ f h).2,
        (creatinineRule_shape _ _ f h).2, (astRule_shape _ f h).2,
        (altRule_shape _ f h).2, (tshRule_shape _ f h).2,
        (wbcRule_shape _ f h).2, (vitaminDRule_shape _ f h).2,
        (vitaminB12Rule_shape _ f h).2]

/-- Witness for C10 at a concrete feverish patient. -/
theorem C10_witness :
    feverFinding ∈ (analyze_patient patientFever).findings ∧
      feverFinding.recommendations ≠ [] :=
  ⟨by with_unfolding_all decide,
   C10_recommendations_nonempty patientFever feverFinding (by with_unfolding_all decide)⟩

/-- C9: for a patient of gender "other", the hemoglobin and creatinine
classifiers emit no Finding and no Condition regardless of the measured
value, because their gender checks cover only the "male" and "female"
tokens. -/
theorem C9_gender_other_skips_gendered_rules :
    Gender.other.value = "other" ∧
    ∀ o : Option Rat,
      hemoglobinRule o "other" = ([], []) ∧ creatinineRule o "other" = ([], []) := by
  refine ⟨rfl, fun o => ⟨?_, ?_⟩⟩
  · cases o with
    | none => rfl
    | some x =>
      simp only [hemoglobinRule, onPresent]
      split
      · rfl
      · rw [if_neg]
        rintro (⟨h, _⟩ | ⟨h, _⟩) <;> exact absurd h (by decide)
  · cases o with
    | none => rfl
    | some x =>
      simp only [creatinineRule, onPresent]
      split
      · rfl
      · rw [if_neg]
        rintro (⟨h, _⟩ | ⟨h, _⟩) <;> exact absurd h (by decide)

/-- Counterexample to C7 as stated: a patient with no vitals and no labs
whose symptoms text holds "anxiety" still gets a possible condition, so
possible_conditions is not empty for every such patient. -/
theorem C7_cex :
    patientAnxiety.vital_signs = none ∧ patientAnxiety.lab_results = none ∧
      (analyze_patient patientAnxiety).possible_conditions ≠ [] := by
  with_unfolding_all decide

/-- C7 amended: for every Patient with no vital_signs, no lab_results
and no symptoms supplied, analyze returns empty findings, empty
possible_conditions, overall risk Normal, the single default no-action
line and the single default 6-month-checkup line. -/
theorem C7_amended (p : Patient) (hv : p.vital_signs = none)
    (hl : p.lab_results = none) (hs : p.symptoms = none) :
    (analyze_patient p).findings = [] ∧
    (analyze_patient p).possible_conditions = [] ∧
    (analyze_patient p).overall_risk = RiskLevel.normal ∧
    (analyze_patient p).immediate_actions = ["No immediate actions required"] ∧
    (analyze_patient p).follow_up_tests = ["Regular health checkup in 6 months"] := by
  obtain ⟨pid, nm, ag, gd, ct, vs, lr, mh, sy⟩ := p
  dsimp only at hv hl hs
  subst hv
  subst hl
  subst hs
  exact ⟨rfl, rfl, rfl, rfl, rfl⟩

/-- Witness for C7 at a concrete empty patient. -/
theorem C7_witness :
    (patientEmpty.vital_signs = none ∧ patientEmpty.lab_results = none ∧
      patientEmpty.symptoms = none) ∧
    ((analyze_patient patientEmpty).findings = [] ∧
     (analyze_patient patientEmpty).possible_conditions = [] ∧
     (analyze_patient patientEmpty).overall_risk = RiskLevel.normal ∧
     (analyze_patient patientEmpty).immediate_actions = ["No immediate actions required"] ∧
     (analyze_patient patientEmpty).follow_up_tests = ["Regular health checkup in 6 months"]) :=
  ⟨⟨rfl, rfl, rfl⟩, C7_amended patientEmpty rfl rfl rfl⟩

theorem onPresent_clearZero {α : Type} (d : α) (f : Rat → α) (o : Option Rat) :
    onPresent d f (clearZero o) = onPresent d f o := by
  cases o with
  | none => rfl
  | some x =>
    by_cases hx : x = 0
    · simp [clearZero, onPresent, hx]
    · simp [clearZero, onPresent, hx]

theorem analyze_labs_clearZero (l : LabResults) (age : Int) (g : String) :
    analyze_labs (clearZeroLabs l) age g = analyze_labs l age g := by
  simp only [analyze_labs, clearZeroLabs, glucoseRule, hba1cRule, totalCholesterolRule,
    ldlRule, hdlRule, hemoglobinRule, creatinineRule, astRule, altRule, tshRule,
    wbcRule, vitaminDRule, vitaminB12Rule, onPresent_clearZero]

theorem analyze_symptoms_clearZero (s : Symptoms) (l : LabResults) :
    analyze_symptoms s (some (clearZeroLabs l)) = analyze_symptoms s (some l) := by
  simp only [analyze_symptoms, diabetesSymptomRule, anemiaSymptomRule,
    clearZeroLabs, onPresent_clearZero]

/-- C8: analyze treats a zero-valued lab measurement exactly like an
absent one: clearing every zero lab field to absent leaves the whole
report unchanged, so no Finding and no Condition is emitted for a
zero-valued parameter by any lab classifier or symptom gate. -/
theorem C8_zero_lab_is_absent (p : Patient) :
    analyze_patient (clearZeroPatient p) = analyze_patient p := by
  obtain ⟨pid, nm, ag, gd, ct, vs, lr, mh, sy⟩ := p
  cases lr with
  | none => rfl
  | some l =>
    simp only [clearZeroPatient, Option.map, analyze_patient, generate_recommendations,
      generate_summary, analyze_labs_clearZero, analyze_symptoms_clearZero]


/-- Counterexample to C2 as stated: for the female patient with
hemoglobin 11.5 g/dL, analyze does emit a low-hemoglobin Finding
(11.5 < 12.0, the female threshold), with status Moderate. -/
theorem C2_cex :
    patientHb115F.gender = Gender.female ∧
    patientHb115F.lab_results = some labsHb115 ∧
    labsHb115.hemoglobin = some 11.5 ∧
    ((analyze_patient patientHb115F).findings.any
      (fun f => f.parameter == "Hemoglobin" && f.status == RiskLevel.moderate)) = true := by
  with_unfolding_all decide

/-- C2 amended: hemoglobin 11.5 g/dL yields a Moderate Hemoglobin
Finding for a male patient and likewise for a female patient, since
11.5 is below both gender thresholds (13.5 and 12.0). -/
theorem C2_amended (p : Patient) (labs : LabResults)
    (hl : p.lab_results = some labs) (hb : labs.hemoglobin = some 11.5)
    (hg : p.gender = Gender.male ∨ p.gender = Gender.female) :
    ∃ f, f ∈ (analyze_patient p).findings ∧ f.parameter = "Hemoglobin" ∧
      f.status = RiskLevel.moderate := by
  refine ⟨{ category := "Complete Blood Count", parameter := "Hemoglobin",
            value := 11.5,
            normal_range := "13.5-17.5 g/dL (men), 12.0-15.5 g/dL (women)",
            status := RiskLevel.moderate, interpretation := "Anemia detected",
            recommendations := ["Iron-rich diet", "Iron supplements",
                                "Check for bleeding sources"] }, ?_, rfl, rfl⟩
  rw [analyze_patient_findings, List.mem_append]
  right
  rw [hl]
  dsimp only
  rw [mem_analyze_labs_fst]
  refine Or.inr (Or.inr (Or.inr (Or.inr (Or.inr (Or.inl ?_)))))
  rw [hb]
  rcases hg with hg | hg <;> rw [hg] <;> with_unfolding_all decide

/-- Witness for C2 at the concrete male patient. -/
theorem C2_witness :
    (patientHb115M.lab_results = some labsHb115 ∧
     labsHb115.hemoglobin = some 11.5 ∧ patientHb115M.gender = Gender.male) ∧
    (∃ f, f ∈ (analyze_patient patientHb115M).findings ∧
      f.parameter = "Hemoglobin" ∧ f.status = RiskLevel.moderate) :=
  ⟨⟨rfl, rfl, rfl⟩, C2_amended patientHb115M labsHb115 rfl rfl (Or.inl rfl)⟩

/-- Counterexample to C4 as stated: at TSH exactly 10 the emitted
Finding has status High but the Hypothyroidism Condition confidence is
"Moderate", not "High" - the confidence does not mirror the status at
the boundary. -/
theorem C4_cex :
    patientTsh10.lab_results = some labsTsh10 ∧ labsTsh10.tsh = some 10 ∧
    ((analyze_patient patientTsh10).findings.any
      (fun f => f.parameter == "TSH" && f.status == RiskLevel.high)) = true ∧
    ((analyze_patient patientTsh10).possible_conditions.any
      (fun c => c.condition == "Hypothyroidism" && c.confidence == "High")) = false ∧
    ((analyze_patient patientTsh10).possible_conditions.any
      (fun c => c.condition == "Hypothyroidism" && c.confidence == "Moderate")) = true := by
  with_unfolding_all decide

/-- C4 amended: for TSH strictly above 4.0 the Hypothyroidism Finding
has status High exactly when TSH is at least 10, while the Condition
confidence is "High" exactly when TSH is strictly above 10; at TSH
exactly 10 the status is High but the confidence is "Moderate". -/
theorem C4_amended (t : Rat) (h4 : (4.0 : Rat) < t) :
    tshRule (some t) =
      ([{ category := "Thyroid Function", parameter := "TSH", value := t,
          normal_range := "0.4-4.0 mIU/L",
          status := if t < 10 then RiskLevel.moderate else RiskLevel.high,
          interpretation := "Hypothyroidism (underactive thyroid)",
          recommendations := ["Thyroid hormone replacement", "Repeat TSH in 6-8 weeks",
                              "Monitor symptoms"] }],
       [{ condition := "Hypothyroidism",
          confidence := if t > 10 then "High" else "Moderate",
          description := "Elevated TSH indicates underactive thyroid" }]) := by
  have h4' : (4 : Rat) < t := by norm_num at h4 ⊢; exact h4
  have h0 : t ≠ 0 := ne_of_gt (lt_trans (by norm_num) h4')
  have hlt : ¬ t < 0.4 := not_lt.mpr (by norm_num; linarith)
  simp only [tshRule, onPresent, if_neg h0, if_neg hlt, if_pos h4]

/-- Witness for C4 at TSH 12. -/
theorem C4_witness :
    (4.0 : Rat) < 12 ∧
    tshRule (some 12) =
      ([{ category := "Thyroid Function", parameter := "TSH", value := 12,
          normal_range := "0.4-4.0 mIU/L",
          status := if (12 : Rat) < 10 then RiskLevel.moderate else RiskLevel.high,
          interpretation := "Hypothyroidism (underactive thyroid)",
          recommendations := ["Thyroid hormone replacement", "Repeat TSH in 6-8 weeks",
                              "Monitor symptoms"] }],
       [{ condition := "Hypothyroidism",
          confidence := if (12 : Rat) > 10 then "High" else "Moderate",
          description := "Elevated TSH indicates underactive thyroid" }]) :=
  ⟨by with_unfolding_all decide, C4_amended 12 (by with_unfolding_all decide)⟩


/-- C5: a present fasting glucose of exactly 100 mg/dL yields a
Moderate Finding interpreted as Prediabetes; exactly 126 mg/dL yields a
High Finding interpreted as Diabetes Mellitus; exactly 99 mg/dL yields
no glucose Finding and no glucose Condition. -/
theorem C5_glucose_boundaries (p : Patient) (labs : LabResults)
    (hl : p.lab_results = some labs) :
    (labs.fasting_glucose = some 100 →
      ∃ f, f ∈ (analyze_patient p).findings ∧ f.parameter = "Fasting Glucose" ∧
        f.status = RiskLevel.moderate ∧
        f.interpretation = "Prediabetes (Impaired Fasting Glucose)") ∧
    (labs.fasting_glucose = some 126 →
      ∃ f, f ∈ (analyze_patient p).findings ∧ f.parameter = "Fasting Glucose" ∧
        f.status = RiskLevel.high ∧ f.interpretation = "Diabetes Mellitus") ∧
    (labs.fasting_glucose = some 99 →
      (∀ f ∈ (analyze_patient p).findings, f.parameter ≠ "Fasting Glucose") ∧
      (∀ c ∈ (analyze_patient p).possible_conditions,
        c.condition ≠ "Diabetes Mellitus" ∧
        c.condition ≠ "Prediabetes (Impaired Fasting Glucose)")) := by
  refine ⟨fun hg => ?_, fun hg => ?_, fun hg => ⟨?_, ?_⟩⟩
  · refine ⟨{ category := "Blood Sugar", parameter := "Fasting Glucose",
              value := 100, normal_range := "70-99 mg/dL",
              status := RiskLevel.moderate,
              interpretation := "Prediabetes (Impaired Fasting Glucose)",
              recommendations := ["HbA1c test recommended", "Lifestyle modifications",
                                  "Consult endocrinologist"] }, ?_, rfl, rfl, rfl⟩
    rw [analyze_patient_findings, List.mem_append]
    right
    rw [hl]
    dsimp only
    rw [mem_analyze_labs_fst]
    left
    rw [hg]
    with_unfolding_all decide
  · refine ⟨{ category := "Blood Sugar", parameter := "Fasting Glucose",
              value := 126, normal_range := "70-99 mg/dL",
              status := RiskLevel.high,
              interpretation := "Diabetes Mellitus",
              recommendations := ["HbA1c test recommended", "Lifestyle modifications",
                                  "Consult endocrinologist"] }, ?_, rfl, rfl, rfl⟩
    rw [analyze_patient_findings, List.mem_append]
    right
    rw [hl]
    dsimp only
    rw [mem_analyze_labs_fst]
    left
    rw [hg]
    with_unfolding_all decide
  · intro f hf
    rw [analyze_patient_findings, List.mem_append] at hf
    rcases hf with hf | hf
    · rcases hv : p.vital_signs with _ | v
      · rw [hv] at hf
        simp at hf
      · rw [hv] at hf
        dsimp only at hf
        rw [mem_analyze_vitals] at hf
        rcases hf with hf | hf | hf | hf | hf
        · rw [(tempFindings_shape v f hf).1]
          decide
        · rw [(bpFindings_shape v f hf).1]
          decide
        · rw [(hrFindings_shape v f hf).1]
          decide
        · rw [(o2Findings_shape v f hf).1]
          decide
        · rw [(bmiFindings_shape v f hf).1]
          decide
    · rw [hl] at hf
      dsimp only at hf
      rw [mem_analyze_labs_fst] at hf
      rcases hf with hf | hf | hf | hf | hf | hf | hf | hf | hf | hf | hf | hf | hf
      · rw [hg] at hf
        rw [show glucoseRule (some 99) = ([], []) from by with_unfolding_all decide] at hf
        simp at hf
      · rw [(hba1cRule_shape _ f hf).1]
        decide
      · rw [(totalCholesterolRule_shape _ f hf).1]
        decide
      · rw [(ldlRule_shape _ f hf).1]
        decide
      · rw [(hdlRule_shape _ f hf).1]
        decide
      · rw [(hemoglobinRule_shape _ _ f hf).1]
        decide
      · rw [(creatinineRule_shape _ _ f hf).1]
        decide
      · rw [(astRule_shape _ f hf).1]
        decide
      · rw [(altRule_shape _ f hf).1]
        decide
      · rw [(tshRule_shape _ f hf).1]
        decide
      · rw [(wbcRule_shape _ f hf).1]
        decide
      · rw [(vitaminDRule_shape _ f hf).1]
        decide
      · rw [(vitaminB12Rule_shape _ f hf).1]
        decide
  · intro c hc
    rw [analyze_patient_conds, List.mem_append] at hc
    rcases hc with hc | hc
    · rw [hl] at hc
      dsimp only at hc
      rw [mem_analyze_labs_snd] at hc
      rcases hc with hc | hc | hc | hc | hc | hc | hc | hc | hc | hc | hc | hc | hc
      · rw [hg] at hc
        rw [show glucoseRule (some 99) = ([], []) from by with_unfolding_all decide] at hc
        simp at hc
      · rw [hba1cRule_conds_nil] at hc
        simp at hc
      · rw [totalCholesterolRule_conds _ c hc]
        exact ⟨by decide, by decide⟩
      · rw [ldlRule_conds_nil] at hc
        simp at hc
      · rw [hdlRule_conds_nil] at hc
        simp at hc
      · rw [hemoglobinRule_conds _ _ c hc]
        exact ⟨by decide, by decide⟩
      · rw [creatinineRule_conds _ _ c hc]
        exact ⟨by decide, by decide⟩
      · rw [astRule_conds_nil] at hc
        simp at hc
      · rw [altRule_conds _ c hc]
        exact ⟨by decide, by decide⟩
      · rcases tshRule_conds _ c hc with h | h <;> rw [h] <;>
          exact ⟨by decide, by decide⟩
      · rw [wbcRule_conds_nil] at hc
        simp at hc
      · rw [vitaminDRule_conds_nil] at hc
        simp at hc
      · rw [vitaminB12Rule_conds_nil] at hc
        simp at hc
    · rcases hs : p.symptoms with _ | s
      · rw [hs] at hc
        simp at hc
      · rw [hs] at hc
        dsimp only at hc
        rw [mem_analyze_symptoms] at hc
        rcases hc with hc | hc | hc | hc | hc
        · obtain ⟨hname, hconf, l, g, hlabs, hfg, hg0, hg100⟩ :=
            diabetesSymptomRule_gate _ _ c hc
          rw [hl] at hlabs
          have hle : labs = l := Option.some.inj hlabs
          rw [← hle, hg] at hfg
          have hge : (99 : Rat) = g := Option.some.inj hfg
          rw [← hge] at hg100
          exact absurd hg100 (by with_unfolding_all decide)
        · rw [hyperthyroidSymptomRule_conds _ c hc]
          exact ⟨by decide, by decide⟩
        · rw [hypothyroidSymptomRule_conds _ c hc]
          exact ⟨by decide, by decide⟩
        · rw [anemiaSymptomRule_conds _ _ c hc]
          exact ⟨by decide, by decide⟩
        · rw [cardiacSymptomRule_conds _ c hc]
          exact ⟨by decide, by decide⟩

/-- Witness for C5 at the concrete patient with fasting glucose 100. -/
theorem C5_witness :
    (patientGlu100.lab_results = some labsGlu100 ∧
     labsGlu100.fasting_glucose = some 100) ∧
    (∃ f, f ∈ (analyze_patient patientGlu100).findings ∧
      f.parameter = "Fasting Glucose" ∧ f.status = RiskLevel.moderate ∧
      f.interpretation = "Prediabetes (Impaired Fasting Glucose)") :=
  ⟨⟨rfl, rfl⟩, (C5_glucose_boundaries patientGlu100 labsGlu100 rfl).1 rfl⟩


theorem countDM_totalCholesterol (o : Option Rat) :
    ((totalCholesterolRule o).2).countP isDiabetesHigh = 0 :=
  List.countP_eq_zero.mpr fun c hc => by
    simp [isDiabetesHigh, totalCholesterolRule_conds o c hc]

theorem countDM_hemoglobin (o : Option Rat) (g : String) :
    ((hemoglobinRule o g).2).countP isDiabetesHigh = 0 :=
  List.countP_eq_zero.mpr fun c hc => by
    simp [isDiabetesHigh, hemoglobinRule_conds o g c hc]

theorem countDM_creatinine (o : Option Rat) (g : String) :
    ((creatinineRule o g).2).countP isDiabetesHigh = 0 :=
  List.countP_eq_zero.mpr fun c hc => by
    simp [isDiabetesHigh, creatinineRule_conds o g c hc]

theorem countDM_alt (o : Option Rat) :
    ((altRule o).2).countP isDiabetesHigh = 0 :=
  List.countP_eq_zero.mpr fun c hc => by
    simp [isDiabetesHigh, altRule_conds o c hc]

theorem countDM_tsh (o : Option Rat) :
    ((tshRule o).2).countP isDiabetesHigh = 0 :=
  List.countP_eq_zero.mpr fun c hc => by
    rcases tshRule_conds o c hc with h | h <;> simp [isDiabetesHigh, h]

theorem countDM_hyperthyroidSym (text : String) :
    (hyperthyroidSymptomRule text).countP isDiabetesHigh = 0 :=
  List.countP_eq_zero.mpr fun c hc => by
    simp [isDiabetesHigh, hyperthyroidSymptomRule_conds text c hc]

theorem countDM_hypothyroidSym (text : String) :
    (hypothyroidSymptomRule text).countP isDiabetesHigh = 0 :=
  List.countP_eq_zero.mpr fun c hc => by
    simp [isDiabetesHigh, hypothyroidSymptomRule_conds text c hc]

theorem countDM_anemiaSym (text : String) (labs : Option LabResults) :
    (anemiaSymptomRule text labs).countP isDiabetesHigh = 0 :=
  List.countP_eq_zero.mpr fun c hc => by
    simp [isDiabetesHigh, anemiaSymptomRule_conds text labs c hc]

theorem countDM_cardiacSym (text : String) :
    (cardiacSymptomRule text).countP isDiabetesHigh = 0 :=
  List.countP_eq_zero.mpr fun c hc => by
    simp [isDiabetesHigh, cardiacSymptomRule_conds text c hc]

theorem countDM_labs (labs : LabResults) (age : Int) (g : String)
    (hg : labs.fasting_glucose = some 140) :
    ((analyze_labs labs age g).2).countP isDiabetesHigh = 1 := by
  have h140 : ((glucoseRule (some 140)).2).countP isDiabetesHigh = 1 := by
    with_unfolding_all decide
  simp only [analyze_labs, List.countP_append, hg, h140, hba1cRule_conds_nil,
    ldlRule_conds_nil, hdlRule_conds_nil, astRule_conds_nil, wbcRule_conds_nil,
    vitaminDRule_conds_nil, vitaminB12Rule_conds_nil, List.countP_nil,
    countDM_totalCholesterol, countDM_hemoglobin, countDM_creatinine, countDM_alt,
    countDM_tsh, Nat.add_zero, Nat.zero_add]

theorem diabetesSymptomRule_fires (text : String) (labs : LabResults)
    (hg : labs.fasting_glucose = some 140)
    (hkw : anyKeyword text
      ["thirst", "urination", "frequent urination", "hunger", "fatigue"] = true) :
    diabetesSymptomRule text (some labs) =
      [{ condition := "Diabetes Mellitus", confidence := "High",
         description := "Classic diabetic symptoms with elevated blood sugar" }] := by
  unfold diabetesSymptomRule
  rw [if_pos hkw]
  dsimp only
  rw [hg]
  dsimp only [onPresent]
  rw [if_neg (show ¬ (140 : Rat) = 0 by norm_num),
      if_pos (show (140 : Rat) > 100 by norm_num)]

theorem countDM_symptoms (s : Symptoms) (labs : LabResults)
    (hg : labs.fasting_glucose = some 140)
    (hkw : anyKeyword (symptom_text s)
      ["thirst", "urination", "frequent urination", "hunger", "fatigue"] = true) :
    (analyze_symptoms s (some labs)).countP isDiabetesHigh = 1 := by
  simp only [analyze_symptoms, List.countP_append, countDM_hyperthyroidSym,
    countDM_hypothyroidSym, countDM_anemiaSym, countDM_cardiacSym,
    diabetesSymptomRule_fires (symptom_text s) labs hg hkw, Nat.add_zero]
  decide

/-- Counterexample to C3 as stated: for the scenario patient whose
symptom text holds only "polyuria" and "polydipsia", the report holds
exactly one "Diabetes Mellitus"/High entry (the lab classifier one),
not two: neither keyword matches the symptom correlator's diabetes
keyword list. -/
theorem C3_cex :
    patientPolyuria.lab_results = some labsGlu140 ∧
    labsGlu140.fasting_glucose = some 140 ∧ labsGlu140.hba1c = some 7.2 ∧
    patientPolyuria.symptoms = some symptomsPolyuria ∧
    strContains (symptom_text symptomsPolyuria) "polyuria" = true ∧
    strContains (symptom_text symptomsPolyuria) "polydipsia" = true ∧
    ((analyze_patient patientPolyuria).possible_conditions).countP isDiabetesHigh = 1 := by
  with_unfolding_all decide

/-- C3 amended: with fasting glucose 140 and HbA1c 7.2 present, the
report holds a "Diabetes Mellitus"/High entry from the lab classifier;
the symptom correlator adds a second, duplicate entry exactly when the
symptom text holds one of its diabetes keywords (thirst, urination,
frequent urination, hunger, fatigue) - "polyuria"/"polydipsia" alone do
not trigger it. -/
theorem C3_amended (p : Patient) (labs : LabResults) (s : Symptoms)
    (hl : p.lab_results = some labs) (hg : labs.fasting_glucose = some 140)
    (ha : labs.hba1c = some 7.2) (hs : p.symptoms = some s)
    (hkw : anyKeyword (symptom_text s)
      ["thirst", "urination", "frequent urination", "hunger", "fatigue"] = true) :
    ((analyze_patient p).possible_conditions).countP isDiabetesHigh = 2 := by
  rw [analyze_patient_conds, hl, hs]
  dsimp only
  rw [List.countP_append, countDM_labs labs p.age p.gender.value hg,
      countDM_symptoms s labs hg hkw]

/-- Witness for C3 at the repository test-suite patient, whose chief
complaint holds "thirst" and "urination". -/
theorem C3_witness :
    (patientThirst.lab_results = some labsGlu140 ∧
     labsGlu140.fasting_glucose = some 140 ∧ labsGlu140.hba1c = some 7.2 ∧
     patientThirst.symptoms = some symptomsThirst ∧
     anyKeyword (symptom_text symptomsThirst)
       ["thirst", "urination", "frequent urination", "hunger", "fatigue"] = true) ∧
    ((analyze_patient patientThirst).possible_conditions).countP isDiabetesHigh = 2 :=
  ⟨⟨rfl, rfl, rfl, rfl, by with_unfolding_all decide⟩,
   C3_amended patientThirst labsGlu140 symptomsThirst rfl rfl rfl rfl
     (by with_unfolding_all decide)⟩

end Mkce
